import Mathlib

/-!
Shallow embedding of the single-page image-styling tool in src/index.tsx.
Session state (uploaded subject image, selected reference image, prompt text)
and the visible UI flags are explicit state records; the two external effects
(fetching a preset reference image and calling the generation service) are an
environment of functions returning Except, standing for promises that either
resolve or throw.
-/

namespace NanoBanana

/-- Result of fileToGenerativePart / urlToGenerativePart: a base64 payload
with its media type, as stored in the uploadedImage global. -/
structure EncodedImage where
  base64 : String
  mimeType : String
deriving Repr, DecidableEq

/-- The inlineData field of a request or response part. -/
structure InlineData where
  data : String
  mimeType : String
deriving Repr, DecidableEq

/-- One part of the outgoing multi-part request: inline image data or text. -/
inductive Part where
  | inlineData (d : InlineData)
  | text (t : String)
deriving Repr, DecidableEq

/-- Response modalities requested in the generateContent config. -/
inductive Modality where
  | IMAGE
  | TEXT
deriving Repr, DecidableEq

/-- The argument of ai.models.generateContent as assembled by the handler. -/
structure GenRequest where
  model : String
  parts : List Part
  responseModalities : List Modality
deriving Repr, DecidableEq

/-- One part of a response candidate; inlineData is optional, matching the
truthiness test part.inlineData in the source. -/
structure RespPart where
  inlineData : Option InlineData
  text : Option String
deriving Repr, DecidableEq

/-- The content field of a candidate; parts may be absent (optional chaining
content?.parts in the source). -/
structure Content where
  parts : Option (List RespPart)
deriving Repr, DecidableEq

/-- One candidate of the service response; content may be absent. -/
structure Candidate where
  content : Option Content
deriving Repr, DecidableEq

/-- The service response; candidates may be absent (response.candidates?). -/
structure Response where
  candidates : Option (List Candidate)
deriving Repr, DecidableEq

/-- The DOM state the handlers read and write: display flags, src and text
attributes, and the disabled flags of the generate button and prompt input. -/
structure UIState where
  loaderVisible : Bool
  resultPlaceholderVisible : Bool
  resultImageVisible : Bool
  resultImageSrc : String
  errorVisible : Bool
  errorText : String
  downloadBtnVisible : Bool
  generateBtnDisabled : Bool
  promptInputDisabled : Bool
  previewVisible : Bool
  previewSrc : String
  uploadPromptVisible : Bool
  removeImageBtnVisible : Bool
  imageUploadValue : String
deriving Repr, DecidableEq

/-- The session state: the two mutable globals of the source plus the prompt
input value and the DOM state. -/
structure AppState where
  uploadedImage : Option EncodedImage
  selectedReferenceImage : Option String
  promptValue : String
  ui : UIState
deriving Repr, DecidableEq

/-- External world: urlToGenerativePart on a reference URL (a fetch that may
throw) and the generateContent call (may throw); thrown errors carry their
message string. -/
structure Env where
  fetchRef : String → Except String EncodedImage
  service : GenRequest → Except String Response

/-- The JS String.prototype.trim builtin, modelled on the character list:
drops whitespace characters from both ends. -/
def jsTrim (s : String) : String :=
  ⟨((s.data.dropWhile Char.isWhitespace).reverse.dropWhile Char.isWhitespace).reverse⟩

/-- The JS String.prototype.startsWith builtin, modelled on the character
list. -/
def jsStartsWith (s p : String) : Bool :=
  p.data.isPrefixOf s.data

/-- updateUIState: generateBtn.disabled = !uploadedImage. -/
def updateUIState (uploaded : Option EncodedImage) (ui : UIState) : UIState :=
  { ui with generateBtnDisabled := uploaded.isNone }

/-- setLoading: shows or hides the loader, hides result, error and download
while loading, and re-derives the generate-button state when loading ends. -/
def setLoading (uploaded : Option EncodedImage) (isLoading : Bool) (ui : UIState) : UIState :=
  if isLoading then
    { ui with
      loaderVisible := true
      resultPlaceholderVisible := false
      resultImageVisible := false
      errorVisible := false
      downloadBtnVisible := false
      generateBtnDisabled := true }
  else
    updateUIState uploaded { ui with loaderVisible := false, generateBtnDisabled := false }

/-- displayError: clears loading, then shows the error text. -/
def displayError (uploaded : Option EncodedImage) (message : String) (ui : UIState) : UIState :=
  let ui1 := setLoading uploaded false ui
  { ui1 with errorText := "Error: " ++ message, errorVisible := true }

/-- A File object as the upload handler sees it: declared media type and the
base64 payload the FileReader would produce. -/
structure JSFile where
  type : String
  base64 : String
deriving Repr, DecidableEq

/-- fileToGenerativePart: pairs the base64 payload with file.type. -/
def fileToGenerativePart (f : JSFile) : EncodedImage :=
  { base64 := f.base64, mimeType := f.type }

/-- handleImageUpload: rejects non-image media types with an alert and no
state change; otherwise stores the encoded image and shows the preview.
The second component is the alert message, when one was raised. -/
def handleImageUpload (f : JSFile) (s : AppState) : AppState × Option String :=
  if jsStartsWith f.type "image/" = false then
    (s, some "Please select an image file.")
  else
    let img := fileToGenerativePart f
    let ui1 := { s.ui with
      previewSrc := "data:" ++ img.mimeType ++ ";base64," ++ img.base64
      previewVisible := true
      uploadPromptVisible := false
      removeImageBtnVisible := true }
    ({ s with uploadedImage := some img, ui := updateUIState (some img) ui1 }, none)

/-- handleRemoveImage: clears the uploaded image, resets the file input and
preview, and re-derives the generate-button state. -/
def handleRemoveImage (s : AppState) : AppState :=
  let ui1 := { s.ui with
    imageUploadValue := ""
    previewSrc := ""
    previewVisible := false
    uploadPromptVisible := true
    removeImageBtnVisible := false }
  { s with uploadedImage := none, ui := updateUIState none ui1 }

/-- The click target of a gallery event: its tag name and its src. -/
structure EventTarget where
  tagName : String
  src : String
deriving Repr, DecidableEq

/-- handleReferenceImageSelect: ignores non-IMG targets; clicking the already
selected image deselects it, clicking any other image selects it. -/
def handleReferenceImageSelect (sel : Option String) (target : Option EventTarget) :
    Option String :=
  match target with
  | none => sel
  | some t =>
    if t.tagName ≠ "IMG" then sel
    else if sel = some t.src then none
    else some t.src

/-- The default instruction text substituted when a reference image is
selected but no prompt was typed. -/
def defaultPromptText : String :=
  "Apply the style of the second image to the first image."

/-- The fixed model name of the generateContent request. -/
def modelName : String := "gemini-2.5-flash-image-preview"

/-- The scan response.candidates?.[0]?.content?.parts?.find(p => p.inlineData)?.inlineData:
only the first candidate is inspected, and within it the first part whose
inlineData is present wins. -/
def findImagePart (r : Response) : Option InlineData :=
  match r.candidates with
  | none => none
  | some cs =>
    match cs.head? with
    | none => none
    | some c =>
      match c.content with
      | none => none
      | some ct =>
        match ct.parts with
        | none => none
        | some ps =>
          match ps.find? (fun p => p.inlineData.isSome) with
          | none => none
          | some p => p.inlineData

/-- Outcome of one generate click: the new state, the generateContent request
that was issued (none when no service call happened), the reference URL that
was fetched (none when no fetch happened), and the alert raised, if any. -/
structure GenResult where
  state : AppState
  request : Option GenRequest
  fetchedRef : Option String
  alert : Option String
deriving Repr

/-- The tail of handleGenerateClick after the contents list is assembled:
issues the service call, renders the first image part on success, shows the
empty-result error otherwise, catches thrown errors, and always ends with
setLoading(false) from the finally block. -/
def finishRequest (env : Env) (s : AppState) (ui0 : UIState) (req : GenRequest)
    (fetched : Option String) : GenResult :=
  match env.service req with
  | .error e =>
    { state := { s with ui := setLoading s.uploadedImage false (displayError s.uploadedImage e ui0) }
      request := some req, fetchedRef := fetched, alert := none }
  | .ok response =>
    match findImagePart response with
    | some imagePart =>
      let ui1 := { ui0 with
        resultImageSrc := "data:" ++ imagePart.mimeType ++ ";base64," ++ imagePart.data
        resultImageVisible := true
        downloadBtnVisible := true }
      { state := { s with ui := setLoading s.uploadedImage false ui1 }
        request := some req, fetchedRef := fetched, alert := none }
    | none =>
      let ui1 := displayError s.uploadedImage
        "No image was generated. Please try a different prompt." ui0
      { state := { s with ui := setLoading s.uploadedImage false ui1 }
        request := some req, fetchedRef := fetched, alert := none }

/-- handleGenerateClick: validates (subject image present; reference image or
non-empty trimmed prompt present), sets the loading state, assembles the
ordered contents list (subject image, then reference image when selected with
the default text substituted for an empty prompt, then the text part), and
runs the request tail. -/
def handleGenerateClick (env : Env) (s : AppState) : GenResult :=
  match s.uploadedImage with
  | none =>
    { state := s, request := none, fetchedRef := none
      alert := some "Please upload an image first." }
  | some uploadedImg =>
    if s.selectedReferenceImage = none ∧ jsTrim s.promptValue = "" then
      { state := s, request := none, fetchedRef := none
        alert := some "Please either select a style image or write a prompt." }
    else
      let ui0 := setLoading s.uploadedImage true s.ui
      let subjectPart : Part := .inlineData ⟨uploadedImg.base64, uploadedImg.mimeType⟩
      let promptText := jsTrim s.promptValue
      match s.selectedReferenceImage with
      | none =>
        finishRequest env s ui0
          ⟨modelName, [subjectPart, .text promptText], [.IMAGE, .TEXT]⟩ none
      | some url =>
        match env.fetchRef url with
        | .error e =>
          let ui1 := setLoading s.uploadedImage false (displayError s.uploadedImage e ui0)
          { state := { s with ui := ui1 }
            request := none, fetchedRef := some url, alert := none }
        | .ok refImagePart =>
          let promptText1 := if promptText = "" then defaultPromptText else promptText
          finishRequest env s ui0
            ⟨modelName,
             [subjectPart, .inlineData ⟨refImagePart.base64, refImagePart.mimeType⟩,
              .text promptText1],
             [.IMAGE, .TEXT]⟩ (some url)

/-- Outcome of main: the UI after initialization and whether the gallery and
event listeners were installed (on a failed client construction main returns
before installing them, so no further interaction reaches the handlers). -/
structure MainResult where
  ui : UIState
  handlersInstalled : Bool
deriving Repr

/-- main: on a failed client construction, reports the setup error, disables
the generate button and the prompt input, and returns without installing any
listener; otherwise installs listeners and derives the initial button state
from the (absent) uploaded image. -/
def mainApp (initOk : Bool) (ui : UIState) : MainResult :=
  if initOk then
    { ui := updateUIState none ui, handlersInstalled := true }
  else
    let ui1 := displayError none
      "Could not initialize the AI service. Please check your API key setup." ui
    { ui := { ui1 with generateBtnDisabled := true, promptInputDisabled := true }
      handlersInstalled := false }

/-- The part list of the issued request, when one was issued. -/
def requestParts (r : GenResult) : Option (List Part) :=
  r.request.map GenRequest.parts

/-- Whether the click reached the network at all: a generateContent call or a
reference-image fetch. -/
def issuedNetworkCall (r : GenResult) : Bool :=
  r.request.isSome || r.fetchedRef.isSome

/-- No part of the first candidate of the response carries inline image data
(vacuously true when candidates, content or parts are absent). -/
def firstCandidateNoImage (r : Response) : Prop :=
  ∀ cs, r.candidates = some cs → ∀ c, cs.head? = some c →
    ∀ ct, c.content = some ct → ∀ ps, ct.parts = some ps →
      ∀ p ∈ ps, p.inlineData = none

/-- Observable behavior of a generate click apart from the echoed prompt
value: same request, same fetch, same alert, same resulting DOM state. -/
def behaviorEq (r1 r2 : GenResult) : Prop :=
  r1.request = r2.request ∧ r1.fetchedRef = r2.fetchedRef ∧
    r1.alert = r2.alert ∧ r1.state.ui = r2.state.ui

/-! Concrete sample data used by the evaluation examples below. -/

/-- A sample uploaded subject image. -/
def imgW : EncodedImage := ⟨"c3ViamVjdA", "image/png"⟩

/-- A sample fetched reference image. -/
def refImgW : EncodedImage := ⟨"cmVm", "image/jpeg"⟩

/-- A sample initial DOM state. -/
def uiW : UIState :=
  { loaderVisible := false, resultPlaceholderVisible := true
    resultImageVisible := false, resultImageSrc := ""
    errorVisible := false, errorText := ""
    downloadBtnVisible := false, generateBtnDisabled := true
    promptInputDisabled := false, previewVisible := false, previewSrc := ""
    uploadPromptVisible := true, removeImageBtnVisible := false
    imageUploadValue := "" }

/-- A sample initial session state. -/
def stW : AppState :=
  { uploadedImage := none, selectedReferenceImage := none, promptValue := "", ui := uiW }

/-- Sample inline image data in a response. -/
def dW : InlineData := ⟨"b3V0", "image/png"⟩

/-- A response part carrying the sample image data. -/
def pW : RespPart := ⟨some dW, none⟩

/-- A candidate whose single part carries image data. -/
def cW : Candidate := ⟨some ⟨some [pW]⟩⟩

/-- A response whose first candidate carries image data. -/
def respImgW : Response := ⟨some [cW]⟩

/-- A response whose only part is text, with no image data. -/
def respEmptyW : Response := ⟨some [⟨some ⟨some [⟨none, some "no image"⟩]⟩⟩]⟩

/-- An environment where the fetch and the service call both succeed and the
service returns an image-bearing response. -/
def envW : Env := ⟨fun _ => .ok refImgW, fun _ => .ok respImgW⟩

/-- An environment whose service call succeeds with an image-free response. -/
def envEmptyW : Env := ⟨fun _ => .ok refImgW, fun _ => .ok respEmptyW⟩

/-! Helper lemmas shared by the claim theorems. -/

/-- setLoading(false) hides the loader and re-derives the generate-button
state from the uploaded image, leaving the other flags alone. -/
theorem setLoading_false_fields (u : Option EncodedImage) (ui : UIState) :
    (setLoading u false ui).loaderVisible = false ∧
    (setLoading u false ui).generateBtnDisabled = u.isNone ∧
    (setLoading u false ui).errorVisible = ui.errorVisible ∧
    (setLoading u false ui).errorText = ui.errorText ∧
    (setLoading u false ui).resultImageVisible = ui.resultImageVisible ∧
    (setLoading u false ui).resultImageSrc = ui.resultImageSrc := by
  simp [setLoading, updateUIState]

/-- Every branch of the request tail returns the issued request, the fetch
marker and no alert, keeps the uploaded image, and ends not loading with the
generate button re-derived. -/
theorem finishRequest_spec (env : Env) (s : AppState) (ui0 : UIState)
    (req : GenRequest) (fetched : Option String) :
    (finishRequest env s ui0 req fetched).request = some req ∧
    (finishRequest env s ui0 req fetched).fetchedRef = fetched ∧
    (finishRequest env s ui0 req fetched).alert = none ∧
    (finishRequest env s ui0 req fetched).state.uploadedImage = s.uploadedImage ∧
    (finishRequest env s ui0 req fetched).state.ui.loaderVisible = false ∧
    (finishRequest env s ui0 req fetched).state.ui.generateBtnDisabled =
      s.uploadedImage.isNone := by
  unfold finishRequest
  cases hs : env.service req with
  | error e => simp [hs, setLoading, displayError, updateUIState]
  | ok r =>
    cases hf : findImagePart r <;>
      simp [hs, hf, setLoading, displayError, updateUIState]

/-- The request tail reports the request it was given. -/
theorem finishRequest_request (env : Env) (s : AppState) (ui0 : UIState)
    (req : GenRequest) (fetched : Option String) :
    (finishRequest env s ui0 req fetched).request = some req :=
  (finishRequest_spec env s ui0 req fetched).1

/-- The request tail reports the fetch marker it was given. -/
theorem finishRequest_fetchedRef (env : Env) (s : AppState) (ui0 : UIState)
    (req : GenRequest) (fetched : Option String) :
    (finishRequest env s ui0 req fetched).fetchedRef = fetched :=
  (finishRequest_spec env s ui0 req fetched).2.1

/-- Claim C4: clicking a gallery image that is currently selected clears the
selection; clicking one that is not currently selected makes it the unique
selection, replacing any previous one; clicking the same image twice in
succession, starting from a state where it is not selected, returns the
selection to empty. -/
theorem reference_select_toggle (sel : Option String) (src : String) :
    (sel = some src →
      handleReferenceImageSelect sel (some ⟨"IMG", src⟩) = none) ∧
    (sel ≠ some src →
      handleReferenceImageSelect sel (some ⟨"IMG", src⟩) = some src) ∧
    (sel ≠ some src →
      handleReferenceImageSelect
        (handleReferenceImageSelect sel (some ⟨"IMG", src⟩)) (some ⟨"IMG", src⟩) = none) := by
  refine ⟨?_, ?_, ?_⟩ <;> intro h <;> simp [handleReferenceImageSelect, h]

/-- Evaluation of reference_select_toggle at a concrete selection. -/
theorem reference_select_toggle_witness :
    handleReferenceImageSelect
      (handleReferenceImageSelect none (some ⟨"IMG", "a"⟩)) (some ⟨"IMG", "a"⟩) = none :=
  (reference_select_toggle none "a").2.2 (by simp)

/-- Claim C9: a file whose declared media type does not start with image/ is
rejected by the upload handler with an alert, and the whole session state is
returned unchanged. -/
theorem upload_rejects_non_image (f : JSFile) (s : AppState)
    (h : jsStartsWith f.type "image/" = false) :
    handleImageUpload f s = (s, some "Please select an image file.") := by
  simp [handleImageUpload, h]

/-- Evaluation of upload_rejects_non_image at a concrete text file. -/
theorem upload_rejects_non_image_witness :
    handleImageUpload ⟨"text/plain", "ZGF0YQ"⟩ stW =
      (stW, some "Please select an image file.") :=
  upload_rejects_non_image ⟨"text/plain", "ZGF0YQ"⟩ stW (by decide)

/-- Claim C8: when the service client cannot be constructed at session start,
main reports the setup error, disables the generate button and the prompt
input, and returns before installing the gallery and the event listeners, so
no generation interaction is possible for the rest of the session. -/
theorem init_failure_disables (ui : UIState) :
    (mainApp false ui).handlersInstalled = false ∧
    (mainApp false ui).ui.generateBtnDisabled = true ∧
    (mainApp false ui).ui.promptInputDisabled = true ∧
    (mainApp false ui).ui.errorVisible = true ∧
    (mainApp false ui).ui.errorText =
      "Error: Could not initialize the AI service. Please check your API key setup." := by
  simp [mainApp, displayError, setLoading, updateUIState]

/-- Claim C1: on a valid submission the issued part list is exactly the
subject image first, the reference image second when selected, and one text
part last: two parts (subject image, text) with no reference image, and three
parts (subject image, reference image, text) when the reference fetch
resolves. -/
theorem request_part_order (env : Env) (ui : UIState) (img : EncodedImage)
    (sel : Option String) (pv : String)
    (hvalid : sel.isSome = true ∨ jsTrim pv ≠ "") :
    (sel = none →
      requestParts (handleGenerateClick env ⟨some img, sel, pv, ui⟩) =
        some [Part.inlineData ⟨img.base64, img.mimeType⟩, Part.text (jsTrim pv)]) ∧
    (∀ url refImg, sel = some url → env.fetchRef url = Except.ok refImg →
      ∃ t, requestParts (handleGenerateClick env ⟨some img, sel, pv, ui⟩) =
        some [Part.inlineData ⟨img.base64, img.mimeType⟩,
              Part.inlineData ⟨refImg.base64, refImg.mimeType⟩, Part.text t]) := by
  constructor
  · intro hsel
    subst hsel
    have hpv : ¬jsTrim pv = "" := by
      rcases hvalid with h | h
      · simp at h
      · exact h
    simp [handleGenerateClick, hpv, requestParts, finishRequest_request]
  · rintro url refImg rfl hfetch
    refine ⟨if jsTrim pv = "" then defaultPromptText else jsTrim pv, ?_⟩
    simp [handleGenerateClick, hfetch, requestParts, finishRequest_request]

/-- Evaluation of request_part_order on a prompt-only submission. -/
theorem request_part_order_witness :
    requestParts (handleGenerateClick envW ⟨some imgW, none, "hi", uiW⟩) =
      some [Part.inlineData ⟨imgW.base64, imgW.mimeType⟩, Part.text (jsTrim "hi")] :=
  (request_part_order envW uiW imgW none "hi" (Or.inr (by decide))).1 rfl

/-- Claim C2: the click reaches the network exactly when a subject image is
present and a reference image or a non-empty trimmed prompt is present; when
validation fails the handler raises an alert, issues nothing, and returns the
session state unchanged. -/
theorem submit_validation (env : Env) (ui : UIState) (uploaded : Option EncodedImage)
    (sel : Option String) (pv : String) :
    (issuedNetworkCall (handleGenerateClick env ⟨uploaded, sel, pv, ui⟩) = true ↔
      uploaded.isSome = true ∧ (sel.isSome = true ∨ jsTrim pv ≠ "")) ∧
    (¬(uploaded.isSome = true ∧ (sel.isSome = true ∨ jsTrim pv ≠ "")) →
      (handleGenerateClick env ⟨uploaded, sel, pv, ui⟩).state = ⟨uploaded, sel, pv, ui⟩ ∧
      (handleGenerateClick env ⟨uploaded, sel, pv, ui⟩).request = none ∧
      (handleGenerateClick env ⟨uploaded, sel, pv, ui⟩).alert.isSome = true) := by
  cases uploaded with
  | none => simp [handleGenerateClick, issuedNetworkCall]
  | some img =>
    by_cases hpv : jsTrim pv = "" <;> cases sel with
    | none => simp [handleGenerateClick, issuedNetworkCall, hpv, finishRequest_request]
    | some url =>
      cases hfetch : env.fetchRef url with
      | error e => simp [handleGenerateClick, issuedNetworkCall, hpv, hfetch]
      | ok r =>
        simp [handleGenerateClick, issuedNetworkCall, hpv, hfetch,
          finishRequest_request, finishRequest_fetchedRef]

/-- Evaluation of submit_validation on a submission with no subject image. -/
theorem submit_validation_witness :
    (handleGenerateClick envW ⟨none, none, "", uiW⟩).request = none ∧
    (handleGenerateClick envW ⟨none, none, "", uiW⟩).alert.isSome = true := by
  have h := (submit_validation envW uiW none none "").2 (by decide)
  exact ⟨h.2.1, h.2.2⟩

/-- Claim C3: with a reference image selected and an empty trimmed prompt the
text part carries the fixed non-empty default instruction; with a non-empty
trimmed prompt the text part (the last part of every issued request) carries
the trimmed user prompt instead. -/
theorem default_prompt_text_used (env : Env) (ui : UIState) (img : EncodedImage)
    (sel : Option String) (pv : String) :
    defaultPromptText ≠ "" ∧
    (∀ url refImg, sel = some url → env.fetchRef url = Except.ok refImg →
      jsTrim pv = "" →
      requestParts (handleGenerateClick env ⟨some img, sel, pv, ui⟩) =
        some [Part.inlineData ⟨img.base64, img.mimeType⟩,
              Part.inlineData ⟨refImg.base64, refImg.mimeType⟩,
              Part.text defaultPromptText]) ∧
    (jsTrim pv ≠ "" →
      ∀ ps, requestParts (handleGenerateClick env ⟨some img, sel, pv, ui⟩) = some ps →
        ps.getLast? = some (Part.text (jsTrim pv))) := by
  refine ⟨by decide, ?_, ?_⟩
  · rintro url refImg rfl hfetch hpv
    simp [handleGenerateClick, hfetch, hpv, requestParts, finishRequest_request]
  · intro hpv ps hps
    cases sel with
    | none =>
      simp [handleGenerateClick, hpv, requestParts, finishRequest_request] at hps
      simp [← hps]
    | some url =>
      cases hfetch : env.fetchRef url with
      | error e =>
        simp [handleGenerateClick, hfetch, requestParts] at hps
      | ok r =>
        simp [handleGenerateClick, hfetch, hpv, requestParts, finishRequest_request] at hps
        simp [← hps]

/-- Evaluation of default_prompt_text_used on a whitespace-only prompt with a
reference image. -/
theorem default_prompt_text_used_witness :
    requestParts (handleGenerateClick envW ⟨some imgW, some "u", "  ", uiW⟩) =
      some [Part.inlineData ⟨imgW.base64, imgW.mimeType⟩,
            Part.inlineData ⟨refImgW.base64, refImgW.mimeType⟩,
            Part.text defaultPromptText] :=
  (default_prompt_text_used envW uiW imgW (some "u") "  ").2.1 "u" refImgW rfl rfl
    (by decide)

/-- The request tail keeps the uploaded image. -/
theorem finishRequest_uploadedImage (env : Env) (s : AppState) (ui0 : UIState)
    (req : GenRequest) (fetched : Option String) :
    (finishRequest env s ui0 req fetched).state.uploadedImage = s.uploadedImage :=
  (finishRequest_spec env s ui0 req fetched).2.2.2.1

/-- The request tail always ends with the loader hidden. -/
theorem finishRequest_loader (env : Env) (s : AppState) (ui0 : UIState)
    (req : GenRequest) (fetched : Option String) :
    (finishRequest env s ui0 req fetched).state.ui.loaderVisible = false :=
  (finishRequest_spec env s ui0 req fetched).2.2.2.2.1

/-- The request tail re-derives the generate button from the uploaded image. -/
theorem finishRequest_disabled (env : Env) (s : AppState) (ui0 : UIState)
    (req : GenRequest) (fetched : Option String) :
    (finishRequest env s ui0 req fetched).state.ui.generateBtnDisabled =
      s.uploadedImage.isNone :=
  (finishRequest_spec env s ui0 req fetched).2.2.2.2.2

/-- When no part of the first candidate carries inline image data, the scan
of the response finds nothing. -/
theorem findImagePart_eq_none (r : Response) (h : firstCandidateNoImage r) :
    findImagePart r = none := by
  unfold findImagePart
  cases hcs : r.candidates with
  | none => rfl
  | some cs =>
    cases hc : cs.head? with
    | none => simp [hc]
    | some c =>
      cases hct : c.content with
      | none => simp [hc, hct]
      | some ct =>
        cases hps : ct.parts with
        | none => simp [hc, hct, hps]
        | some ps =>
          cases hfind : ps.find? (fun p => p.inlineData.isSome) with
          | none => simp [hc, hct, hps, hfind]
          | some p =>
            have hp := List.find?_some hfind
            have hmem := List.mem_of_find?_eq_some hfind
            have hnone := h cs hcs c hc ct hct ps hps p hmem
            simp [hnone] at hp

/-- Claim C5: when the service responds but no part of the first candidate
carries image data, the handler shows the empty-result error and the result
image stays hidden. -/
theorem empty_result_error (env : Env) (ui : UIState) (img : EncodedImage)
    (sel : Option String) (pv : String) (resp : Response)
    (hvalid : sel.isSome = true ∨ jsTrim pv ≠ "")
    (hfetch : ∀ url, sel = some url → ∃ r, env.fetchRef url = Except.ok r)
    (hsvc : ∀ req, env.service req = Except.ok resp)
    (hnoimg : firstCandidateNoImage resp) :
    (handleGenerateClick env ⟨some img, sel, pv, ui⟩).state.ui.errorVisible = true ∧
    (handleGenerateClick env ⟨some img, sel, pv, ui⟩).state.ui.errorText =
      "Error: No image was generated. Please try a different prompt." ∧
    (handleGenerateClick env ⟨some img, sel, pv, ui⟩).state.ui.resultImageVisible =
      false := by
  have hfind := findImagePart_eq_none resp hnoimg
  cases sel with
  | none =>
    have hpv : ¬jsTrim pv = "" := by
      rcases hvalid with h | h
      · simp at h
      · exact h
    simp [handleGenerateClick, hpv, finishRequest, hsvc, hfind, setLoading,
      displayError, updateUIState]
  | some url =>
    obtain ⟨rf, hrf⟩ := hfetch url rfl
    simp [handleGenerateClick, hrf, finishRequest, hsvc, hfind, setLoading,
      displayError, updateUIState]

/-- Evaluation of empty_result_error on an image-free response. -/
theorem empty_result_error_witness :
    (handleGenerateClick envEmptyW ⟨some imgW, none, "hi", uiW⟩).state.ui.errorVisible =
      true ∧
    (handleGenerateClick envEmptyW ⟨some imgW, none, "hi", uiW⟩).state.ui.errorText =
      "Error: No image was generated. Please try a different prompt." ∧
    (handleGenerateClick envEmptyW
        ⟨some imgW, none, "hi", uiW⟩).state.ui.resultImageVisible = false :=
  empty_result_error envEmptyW uiW imgW none "hi" respEmptyW (Or.inr (by decide))
    (fun url h => Option.noConfusion h) (fun req => rfl)
    (by intro cs hcs c hc ct hct ps hps p hp
        simp [respEmptyW] at hcs
        subst hcs
        simp at hc
        subst hc
        simp at hct
        subst hct
        simp at hps
        subst hps
        simp at hp
        subst hp
        rfl)

/-- Claim C6: every completed attempt (past validation) keeps the subject
image, ends with the loader hidden, and leaves the generate button disabled
exactly when no subject image remains; no path stays busy. -/
theorem busy_state_cleared (env : Env) (ui : UIState) (img : EncodedImage)
    (sel : Option String) (pv : String)
    (hvalid : sel.isSome = true ∨ jsTrim pv ≠ "") :
    (handleGenerateClick env ⟨some img, sel, pv, ui⟩).state.uploadedImage = some img ∧
    (handleGenerateClick env ⟨some img, sel, pv, ui⟩).state.ui.loaderVisible = false ∧
    (handleGenerateClick env ⟨some img, sel, pv, ui⟩).state.ui.generateBtnDisabled =
      ((handleGenerateClick env ⟨some img, sel, pv, ui⟩).state.uploadedImage).isNone := by
  cases sel with
  | none =>
    have hpv : ¬jsTrim pv = "" := by
      rcases hvalid with h | h
      · simp at h
      · exact h
    simp [handleGenerateClick, hpv, finishRequest_uploadedImage, finishRequest_loader,
      finishRequest_disabled]
  | some url =>
    cases hfetch : env.fetchRef url with
    | error e =>
      simp [handleGenerateClick, hfetch, setLoading, displayError, updateUIState]
    | ok r =>
      simp [handleGenerateClick, hfetch, finishRequest_uploadedImage,
        finishRequest_loader, finishRequest_disabled]

/-- Evaluation of busy_state_cleared on a successful submission. -/
theorem busy_state_cleared_witness :
    (handleGenerateClick envW ⟨some imgW, none, "hi", uiW⟩).state.uploadedImage =
      some imgW ∧
    (handleGenerateClick envW ⟨some imgW, none, "hi", uiW⟩).state.ui.loaderVisible =
      false ∧
    (handleGenerateClick envW ⟨some imgW, none, "hi", uiW⟩).state.ui.generateBtnDisabled =
      ((handleGenerateClick envW ⟨some imgW, none, "hi", uiW⟩).state.uploadedImage).isNone :=
  busy_state_cleared envW uiW imgW none "hi" (Or.inr (by decide))

/-- find? over a list whose head segment has no image data returns the first
image-bearing part, whatever follows it. -/
theorem find?_first_image (pre post : List RespPart) (p : RespPart)
    (hpre : ∀ q ∈ pre, q.inlineData = none) (hp : p.inlineData.isSome = true) :
    (pre ++ p :: post).find? (fun q => q.inlineData.isSome) = some p := by
  induction pre with
  | nil => simp [List.find?_cons_of_pos, hp]
  | cons a t ih =>
    have ha : a.inlineData = none := hpre a (List.mem_cons_self a t)
    rw [List.cons_append, List.find?_cons_of_neg]
    · exact ih fun q hq => hpre q (List.mem_cons_of_mem a hq)
    · simp [ha]

/-- The response scan looks only at the first candidate and picks its first
image-bearing part, ignoring later candidates and later parts. -/
theorem findImagePart_first (c : Candidate) (cs : List Candidate)
    (pre post : List RespPart) (p : RespPart) (d : InlineData)
    (hpre : ∀ q ∈ pre, q.inlineData = none) (hp : p.inlineData = some d)
    (hc : c.content = some ⟨some (pre ++ p :: post)⟩) :
    findImagePart ⟨some (c :: cs)⟩ = some d := by
  have hfind := find?_first_image pre post p hpre (by simp [hp])
  simp [findImagePart, hc, hfind, hp]

/-- Claim C7: the handler inspects only the first candidate of the response
and renders the first part carrying inline image data; later candidates and
the parts after the first image-bearing one are ignored. -/
theorem first_image_part_rendered (env : Env) (ui : UIState) (img : EncodedImage)
    (pv : String) (c : Candidate) (cs : List Candidate)
    (pre post : List RespPart) (p : RespPart) (d : InlineData)
    (hpv : jsTrim pv ≠ "")
    (hpre : ∀ q ∈ pre, q.inlineData = none)
    (hp : p.inlineData = some d)
    (hc : c.content = some ⟨some (pre ++ p :: post)⟩)
    (hsvc : ∀ req, env.service req = Except.ok ⟨some (c :: cs)⟩) :
    findImagePart ⟨some (c :: cs)⟩ = some d ∧
    (handleGenerateClick env ⟨some img, none, pv, ui⟩).state.ui.resultImageSrc =
      "data:" ++ d.mimeType ++ ";base64," ++ d.data ∧
    (handleGenerateClick env ⟨some img, none, pv, ui⟩).state.ui.resultImageVisible =
      true := by
  have hfind := findImagePart_first c cs pre post p d hpre hp hc
  refine ⟨hfind, ?_, ?_⟩ <;>
    simp [handleGenerateClick, hpv, finishRequest, hsvc, hfind, setLoading,
      displayError, updateUIState]

/-- Evaluation of first_image_part_rendered on a one-candidate response. -/
theorem first_image_part_rendered_witness :
    findImagePart ⟨some [cW]⟩ = some dW ∧
    (handleGenerateClick envW ⟨some imgW, none, "hi", uiW⟩).state.ui.resultImageSrc =
      "data:" ++ dW.mimeType ++ ";base64," ++ dW.data ∧
    (handleGenerateClick envW ⟨some imgW, none, "hi", uiW⟩).state.ui.resultImageVisible =
      true :=
  first_image_part_rendered envW uiW imgW "hi" cW [] [] [] pW dW (by decide)
    (fun q hq => absurd hq (List.not_mem_nil q)) rfl rfl (fun req => rfl)

/-- Every branch of the request tail behaves the same on two states sharing
the uploaded image. -/
theorem finishRequest_behaviorEq (env : Env) (s1 s2 : AppState) (ui0 : UIState)
    (req : GenRequest) (f : Option String)
    (h : s1.uploadedImage = s2.uploadedImage) :
    behaviorEq (finishRequest env s1 ui0 req f) (finishRequest env s2 ui0 req f) := by
  unfold behaviorEq finishRequest
  cases hs : env.service req with
  | error e => simp [hs, h]
  | ok r => cases hf : findImagePart r <;> simp [hs, hf, h]

/-- Claim C10: the prompt is trimmed before every use: a whitespace-only
prompt behaves exactly like the empty prompt, every text part of an issued
request is the trimmed prompt or the default instruction, and the default
instruction carries no surrounding whitespace. -/
theorem prompt_trimmed (env : Env) (ui : UIState) (uploaded : Option EncodedImage)
    (sel : Option String) :
    (∀ w, jsTrim w = "" →
      behaviorEq (handleGenerateClick env ⟨uploaded, sel, w, ui⟩)
        (handleGenerateClick env ⟨uploaded, sel, "", ui⟩)) ∧
    (∀ pv ps, requestParts (handleGenerateClick env ⟨uploaded, sel, pv, ui⟩) = some ps →
      ∀ t, Part.text t ∈ ps → t = jsTrim pv ∨ t = defaultPromptText) ∧
    jsTrim defaultPromptText = defaultPromptText := by
  have h0 : jsTrim "" = "" := rfl
  refine ⟨?_, ?_, by decide⟩
  · intro w hw
    cases uploaded with
    | none => simp [handleGenerateClick, behaviorEq]
    | some img =>
      cases sel with
      | none => simp [handleGenerateClick, hw, h0, behaviorEq]
      | some url =>
        cases hfetch : env.fetchRef url with
        | error e => simp [handleGenerateClick, hw, h0, hfetch, behaviorEq]
        | ok r =>
          simp only [handleGenerateClick, hw, h0, hfetch]
          simp
          exact finishRequest_behaviorEq env _ _ _ _ _ rfl
  · intro pv ps hps t ht
    cases uploaded with
    | none => simp [handleGenerateClick, requestParts] at hps
    | some img =>
      cases sel with
      | none =>
        by_cases hpv : jsTrim pv = ""
        · simp [handleGenerateClick, hpv, requestParts] at hps
        · simp [handleGenerateClick, hpv, requestParts, finishRequest_request] at hps
          subst hps
          simp at ht
          exact Or.inl ht
      | some url =>
        cases hfetch : env.fetchRef url with
        | error e =>
          simp [handleGenerateClick, hfetch, requestParts] at hps
        | ok r =>
          simp [handleGenerateClick, hfetch, requestParts, finishRequest_request] at hps
          subst hps
          simp at ht
          by_cases hpv : jsTrim pv = "" <;> simp [hpv] at ht
          · exact Or.inr ht
          · exact Or.inl ht

/-- Evaluation of prompt_trimmed on a whitespace-only prompt. -/
theorem prompt_trimmed_witness :
    behaviorEq (handleGenerateClick envW ⟨some imgW, none, "  ", uiW⟩)
      (handleGenerateClick envW ⟨some imgW, none, "", uiW⟩) :=
  (prompt_trimmed envW uiW (some imgW) none).1 "  " (by decide)

end NanoBanana
